import Mathlib

/-!
Verification development for the consultation-report service (`app.py`).

The embedding below translates the pure logic of the source into Lean:

* the line classifier and spacer logic of `create_pdf` (app.py lines 356-388),
* the prompt builder and inner retry loop of `generate_consultation`
  (app.py lines 215-297),
* the outer, time-budgeted workflow loop of `payment_success`
  (app.py lines 130-175).

External effects (the OpenAI call, `doc.build`, the clock, uuid generation)
are passed in as explicit environment parameters, so every function here is
executable and its behaviour on concrete inputs can be checked by `decide`.
-/

namespace App

/-- Python `str.strip` whitespace set, restricted to the ASCII whitespace
characters (space, tab, newline, carriage return, vertical tab, form feed).
The source only ever strips model output, which is text in this range. -/
def pyIsSpaceChar (c : Char) : Bool :=
  c = ' ' || c = '\t' || c = '\n' || c = '\r' || c = Char.ofNat 11 || c = Char.ofNat 12

/-- `l` with leading and trailing Python-whitespace removed: `para.strip()`. -/
def pyStripList (l : List Char) : List Char :=
  ((l.dropWhile pyIsSpaceChar).reverse.dropWhile pyIsSpaceChar).reverse

/-- Python `str.lower`, ASCII case folding (the substrings searched for are
ASCII). -/
def pyLower (l : List Char) : List Char :=
  l.map Char.toLower

/-- A character is cased (for Python `str.isupper`), ASCII range. -/
def pyIsCased (c : Char) : Bool :=
  c.isUpper || c.isLower

/-- Python `s.isupper()`: at least one cased character and every cased
character uppercase. -/
def pyIsUpperList (l : List Char) : Bool :=
  l.any pyIsCased && l.all (fun c => !pyIsCased c || c.isUpper)

/-- The bullet literal that actually appears in app.py line 364: the source
file contains the three characters U+00E2, U+20AC, U+00A2 (the UTF-8 bytes of
the bullet glyph U+2022 mis-decoded as cp1252), not the bullet glyph itself. -/
def mojibakeBullet : List Char :=
  [Char.ofNat 0xE2, Char.ofNat 0x20AC, Char.ofNat 0xA2]

/-- Python substring test `needle in hay`: `needle` occurs contiguously
somewhere in `hay` (an empty needle always occurs). -/
def containsSub (needle : List Char) : List Char → Bool
  | [] => needle.isEmpty
  | c :: rest => needle.isPrefixOf (c :: rest) || containsSub needle rest

/-- The signature test of app.py line 374:
`"signature" in para.lower() or "sign" in para.lower() or "date:" in para.lower()`
(note: applied to the raw line, not the stripped one). -/
def containsSig (para : String) : Bool :=
  containsSub "signature".toList (pyLower para.toList)
    || containsSub "sign".toList (pyLower para.toList)
    || containsSub "date:".toList (pyLower para.toList)

/-- Semantic role of a line, per the branch taken in `create_pdf`. -/
inductive Role where
  | Header
  | UppercaseHeader
  | Bullet
  | Signature
  | Body
  | Blank
deriving Repr, DecidableEq

/-- The line classifier: the `if`/`elif` chain of app.py lines 358-383,
evaluated in source order.  `Blank` is the `if para.strip():` guard failing. -/
def classify (para : String) : Role :=
  if pyStripList para.toList = [] then .Blank
  else if ['#'].isPrefixOf (pyStripList para.toList) then .Header
  else if pyIsUpperList (pyStripList para.toList) ∧ 3 < (pyStripList para.toList).length then
    .UppercaseHeader
  else if mojibakeBullet.isPrefixOf (pyStripList para.toList)
        ∨ ['-'].isPrefixOf (pyStripList para.toList)
        ∨ ['*'].isPrefixOf (pyStripList para.toList) then
    .Bullet
  else if containsSig para then .Signature
  else .Body

/-- Rendered text of a `#` header line, app.py line 360:
`para.replace('#', '').strip()` — every `'#'` is removed, wherever it occurs,
then the result is stripped. -/
def headerText (para : String) : String :=
  String.mk (pyStripList (para.toList.filter (fun c => c ≠ '#')))

/-- Height of the spacer appended after a non-blank line, app.py lines
385-388: `if para.strip().startswith('#') or para.strip().isupper(): 10 else 6`.
Note this condition has no length threshold, unlike the UppercaseHeader rule. -/
def spacerAfter (para : String) : Nat :=
  if ['#'].isPrefixOf (pyStripList para.toList) ∨ pyIsUpperList (pyStripList para.toList) then
    10
  else 6

/-! ## Generation orchestrator (`generate_consultation`, app.py 215-297) -/

/-- Python `f"...{x}..."` on an optional form value: `str(None)` is the
four-character string `"None"`, a present value formats as itself. -/
def pyStr : Option String → String
  | none => "None"
  | some s => s

/-- Python truthiness of `form_data.get(key)`: `None` and the empty string
are falsy, any other string is truthy. -/
def pyTruthy : Option String → Bool
  | none => false
  | some s => s ≠ ""

/-- The form fields read by `generate_consultation` (app.py 217-233); each is
`Option` because `dict.get` yields `None` for a missing key. -/
structure FormData where
  consultancy_type : Option String
  business_name : Option String
  business_type : Option String
  industry : Option String
  business_size : Option String
  focus_strategy : Option String
  focus_operations : Option String
  focus_marketing : Option String
  focus_customer : Option String
  additional_instructions : Option String
deriving Repr, DecidableEq

/-- The `CONSULTANCY_TYPES` dict, app.py lines 64-71. -/
def CONSULTANCY_TYPES : List (String × String) :=
  [("strategy", "AI Business Strategy Consultation"),
   ("implementation", "AI Implementation Plan"),
   ("audit", "AI Readiness Audit"),
   ("roadmap", "AI Adoption Roadmap"),
   ("ethics", "AI Ethics Framework"),
   ("training", "AI Training Program")]

/-- `CONSULTANCY_TYPES.get(key, dflt)`: `None` is not a key of the dict, so a
missing `consultancy_type` falls back to the default label. -/
def consultancyLabel (key : Option String) (dflt : String) : String :=
  match key with
  | none => dflt
  | some s =>
    match CONSULTANCY_TYPES.lookup s with
    | some v => v
    | none => dflt

/-- The focus-area list built on app.py lines 223-231. -/
def focusAreas (f : FormData) : List String :=
  (if pyTruthy f.focus_strategy then ["Business Strategy"] else [])
    ++ (if pyTruthy f.focus_operations then ["Operations Optimization"] else [])
    ++ (if pyTruthy f.focus_marketing then ["Marketing & Sales"] else [])
    ++ (if pyTruthy f.focus_customer then ["Customer Experience"] else [])

/-- `', '.join(focus_areas) if focus_areas else 'General AI Adoption'`. -/
def focusText (f : FormData) : String :=
  if focusAreas f = [] then "General AI Adoption"
  else String.intercalate ", " (focusAreas f)

/-- The prompt f-string of app.py lines 235-252. -/
def buildPrompt (f : FormData) : String :=
  "Generate a comprehensive " ++ consultancyLabel f.consultancy_type "AI Consultancy"
    ++ " report for " ++ pyStr f.business_name ++ ", a " ++ pyStr f.business_size
    ++ " " ++ pyStr f.business_type ++ " in the " ++ pyStr f.industry
    ++ " industry.\n\nFocus Areas: " ++ focusText f
    ++ "\n\nAdditional Instructions: " ++ f.additional_instructions.getD ""
    ++ "\n\n**Report Structure Guidelines:**\n1. Executive Summary (1 paragraph)\n"
    ++ "2. Current State Analysis\n3. Key Opportunities for AI Adoption\n"
    ++ "4. Recommended AI Solutions\n5. Implementation Roadmap\n6. Risk Assessment\n"
    ++ "7. ROI Projections\n8. Next Steps\n\n"
    ++ "Format the report professionally with clear headings, bullet points for key "
    ++ "recommendations, and data-driven insights. Use business-friendly language "
    ++ "while maintaining technical accuracy.\n"

/-- `max_retries` of the inner OpenAI-call loop, app.py line 254. -/
def inner_max_retries : Nat := 3

/-- The inner retry loop of app.py lines 257-280.  `llm attempt` is the
outcome of the OpenAI call on that attempt; the second projection counts how
many calls were issued.  `remaining` counts iterations left in `range(3)`
(the code retries while `attempt < max_retries - 1`, i.e. while iterations
remain); on the last attempt the failure is raised wrapped as
`"Failed to generate consultation after 3 attempts: ..."` (line 280). -/
def innerLoop (llm : Nat → Except String String) (attempt : Nat) :
    Nat → Except String String × Nat
  | 0 => (.error "", 0)
  | remaining + 1 =>
    match llm attempt with
    | .ok text => (.ok text, 1)
    | .error e =>
      match remaining with
      | 0 => (.error ("Failed to generate consultation after 3 attempts: " ++ e), 1)
      | r + 1 =>
        let rest := innerLoop llm (attempt + 1) (r + 1)
        (rest.1, rest.2 + 1)

/-- The dict returned by `generate_consultation` on success (app.py 290-293). -/
structure GenResult where
  success : Bool
  download_url : String
deriving Repr, DecidableEq

deriving instance DecidableEq for Except

/-- Observable outcome of one `generate_consultation` call: the returned dict
or the raised exception message, plus the effect trace the claims are about
(number of OpenAI calls, number of `create_pdf` invocations, files written,
the document title handed to `create_pdf`, and the prompt built). -/
structure GenOutput where
  outcome : Except String GenResult
  llmCalls : Nat
  renderCalls : Nat
  files : List String
  title : Option String
  prompt : String
deriving Repr, DecidableEq

/-- `generate_consultation(form_data)`, app.py lines 215-297, with the
external effects passed in: `llm prompt attempt` is the OpenAI call's result,
`render` is whether `doc.build` succeeds or raises, `uuidHex` is
`uuid.uuid4().hex`.  All OpenAI failures exhaust the inner loop and re-raise
wrapped by the outer handler (line 297); otherwise the filename is
`f"{consultancy_type}_{uuid.uuid4().hex[:8]}.pdf"` and `create_pdf` is
invoked exactly once; a `create_pdf` exception is also wrapped by line 297. -/
def generate_consultation (form : FormData) (llm : String → Nat → Except String String)
    (render : Except String Unit) (uuidHex : String) : GenOutput :=
  let prompt := buildPrompt form
  let res := innerLoop (llm prompt) 0 inner_max_retries
  match res.1 with
  | .error e =>
    { outcome := .error ("Failed to generate consultation: " ++ e),
      llmCalls := res.2, renderCalls := 0, files := [], title := none, prompt := prompt }
  | .ok _text =>
    let filename := pyStr form.consultancy_type ++ "_"
        ++ String.mk (uuidHex.toList.take 8) ++ ".pdf"
    let docTitle := consultancyLabel form.consultancy_type "AI Consultancy Report"
    match render with
    | .ok _ =>
      { outcome := .ok { success := true, download_url := "/download/" ++ filename },
        llmCalls := res.2, renderCalls := 1, files := [filename],
        title := some docTitle, prompt := prompt }
    | .error re =>
      { outcome := .error ("Failed to generate consultation: " ++ re),
        llmCalls := res.2, renderCalls := 1, files := [],
        title := some docTitle, prompt := prompt }

/-! ## Payment-gated workflow loop (`payment_success`, app.py 130-175) -/

/-- The `timeout_limit` of app.py line 131. -/
def timeout_limit : Nat := 25

/-- `max_retries` of the outer workflow loop, app.py line 133. -/
def outer_max_retries : Nat := 2

/-- The 202 message of app.py lines 140-143. -/
def processingMsg : String :=
  "Your consultation report is still being generated. Please wait a moment and try again."

/-- The HTTP-level response produced by `payment_success`'s loop body:
`jsonify(document_result)` (200), the 202 processing response, or a 500 with
an error message.  `fellThrough` is the implicit `None` Python would return
if the `for` loop ended without returning (provably never happens). -/
inductive HttpResponse where
  | ok200 (r : GenResult)
  | accepted202 (msg : String)
  | error500 (msg : String)
  | fellThrough
deriving Repr, DecidableEq

/-- Observable result of the workflow loop: the response plus the aggregate
effect trace, and a count of how often the `else` branch of
`if document_result.get('success')` (app.py lines 149-158) was entered. -/
structure WorkflowOutput where
  response : HttpResponse
  genInvocations : Nat
  llmCalls : Nat
  renderCalls : Nat
  files : List String
  unsuccessfulResults : Nat
deriving Repr, DecidableEq

/-- One-to-two iterations of the outer loop of app.py lines 136-168.
`elapsed n` is `time.time() - start_time` as observed by the budget check at
the top of iteration `n` (line 138); `gen n` is the `generate_consultation`
call of iteration `n`.  `remaining` counts iterations left in `range(2)`; the
code's `attempt < max_retries - 1` retry guard holds exactly while further
iterations remain.  A result dict with a falsy `'success'` reads
`document_result.get('error', 'Unknown error')`; the returned dicts carry no
`'error'` key, so the default is what the 500 of line 158 would embed. -/
def outerLoop (elapsed : Nat → Nat) (gen : Nat → GenOutput) (attempt : Nat) :
    Nat → WorkflowOutput
  | 0 => { response := .fellThrough, genInvocations := 0, llmCalls := 0,
           renderCalls := 0, files := [], unsuccessfulResults := 0 }
  | remaining + 1 =>
    if timeout_limit < elapsed attempt then
      { response := .accepted202 processingMsg, genInvocations := 0, llmCalls := 0,
        renderCalls := 0, files := [], unsuccessfulResults := 0 }
    else
      let g := gen attempt
      match g.outcome with
      | .ok r =>
        if r.success then
          { response := .ok200 r, genInvocations := 1, llmCalls := g.llmCalls,
            renderCalls := g.renderCalls, files := g.files, unsuccessfulResults := 0 }
        else
          match remaining with
          | 0 =>
            { response := .error500
                ("Failed to generate consultation after 2 attempts: Unknown error"),
              genInvocations := 1, llmCalls := g.llmCalls,
              renderCalls := g.renderCalls, files := g.files, unsuccessfulResults := 1 }
          | r' + 1 =>
            let rest := outerLoop elapsed gen (attempt + 1) (r' + 1)
            { response := rest.response, genInvocations := rest.genInvocations + 1,
              llmCalls := g.llmCalls + rest.llmCalls,
              renderCalls := g.renderCalls + rest.renderCalls,
              files := g.files ++ rest.files,
              unsuccessfulResults := rest.unsuccessfulResults + 1 }
      | .error e =>
        match remaining with
        | 0 =>
          { response := .error500 ("Consultation generation failed after 2 attempts: " ++ e),
            genInvocations := 1, llmCalls := g.llmCalls,
            renderCalls := g.renderCalls, files := g.files, unsuccessfulResults := 0 }
        | r' + 1 =>
          let rest := outerLoop elapsed gen (attempt + 1) (r' + 1)
          { response := rest.response, genInvocations := rest.genInvocations + 1,
            llmCalls := g.llmCalls + rest.llmCalls,
            renderCalls := g.renderCalls + rest.renderCalls,
            files := g.files ++ rest.files,
            unsuccessfulResults := rest.unsuccessfulResults }

/-- The generation part of `payment_success` (app.py lines 130-168), after the
Stripe session has been retrieved and the form data decoded: the outer
workflow loop, invoking `generate_consultation` per attempt.  `llm n`,
`render n` and `uuidHex n` are the external effects seen by the attempt-`n`
invocation. -/
def payment_success (form : FormData) (elapsed : Nat → Nat)
    (llm : Nat → String → Nat → Except String String)
    (render : Nat → Except String Unit) (uuidHex : Nat → String) : WorkflowOutput :=
  outerLoop elapsed (fun n => generate_consultation form (llm n) (render n) (uuidHex n))
    0 outer_max_retries

/-- An all-defaults form submission (every `dict.get` misses). -/
def emptyForm : FormData :=
  { consultancy_type := none, business_name := none, business_type := none,
    industry := none, business_size := none, focus_strategy := none,
    focus_operations := none, focus_marketing := none, focus_customer := none,
    additional_instructions := none }

/-! ## Helper lemmas -/

lemma mem_of_mem_pyStripList {c : Char} {l : List Char} (h : c ∈ pyStripList l) :
    c ∈ l := by
  unfold pyStripList at h
  rw [List.mem_reverse] at h
  have h2 := (List.dropWhile_sublist _).subset h
  rw [List.mem_reverse] at h2
  exact (List.dropWhile_sublist _).subset h2

/-! ## Claims about the line classifier -/

lemma classify_hash (para : String)
    (h : ['#'].isPrefixOf (pyStripList para.toList) = true) :
    classify para = Role.Header := by
  have hne : pyStripList para.toList ≠ [] := by
    intro he
    rw [he] at h
    simp [List.isPrefixOf] at h
  simp only [classify]
  rw [if_neg hne, if_pos h]

/-- C1: every line whose trimmed form starts with `'#'` is classified
`Header`, whatever its case or remaining content; in particular the
uppercase, bullet and signature rules never fire on such a line, because the
`'#'` branch of `create_pdf` is tested first. -/
theorem classify_hash_header (para : String)
    (h : ['#'].isPrefixOf (pyStripList para.toList) = true) :
    classify para = Role.Header :=
  classify_hash para h

/-- Witness for `classify_hash_header`, at the line `"# Signature"`, which
also matches the signature rule. -/
theorem classify_hash_header_witness :
    ['#'].isPrefixOf (pyStripList "# Signature".toList) = true
      ∧ classify "# Signature" = Role.Header :=
  ⟨by decide, classify_hash_header "# Signature" (by decide)⟩

/-- C6 counterexample: for the line `"# A#B"` the code renders the header
text `"AB"` — the interior `'#'` is removed too, because line 360 does
`para.replace('#', '')` — whereas removing only the leading `'#'` characters
would give `"A#B"`. -/
theorem headerText_cex :
    headerText "# A#B" = "AB" ∧ headerText "# A#B" ≠ "A#B" := by
  constructor
  · decide
  · decide

/-- C6 as amended: the rendered header text is the line with every `'#'`
character removed — leading or not — and then stripped; consequently it never
contains a `'#'` at all. -/
theorem headerText_removes_every_hash (para : String) :
    (headerText para).toList = pyStripList (para.toList.filter (fun c => c ≠ '#'))
      ∧ '#' ∉ (headerText para).toList := by
  refine ⟨rfl, ?_⟩
  intro hmem
  have h := mem_of_mem_pyStripList (c := '#') (l := para.toList.filter (fun c => c ≠ '#'))
    hmem
  simp [List.mem_filter] at h

/-- C7 counterexample: the line `"OK"` is classified `Body` (all-uppercase
but not longer than 3 characters), yet the spacer appended after it has the
larger height 10, because the spacer condition on line 385 checks
`para.strip().isupper()` with no length threshold. -/
theorem spacer_cex : classify "OK" = Role.Body ∧ spacerAfter "OK" = 10 := by
  constructor
  · decide
  · decide

/-- C7 as amended: a non-blank line is followed by the larger spacer iff it
is classified `Header` or `UppercaseHeader` **or** its trimmed form is
entirely uppercase (even when it is at most 3 characters long and therefore
classified by a later rule); all other non-blank lines get the smaller
spacer. -/
theorem spacer_large_iff (para : String) (hne : pyStripList para.toList ≠ []) :
    spacerAfter para = 10 ↔
      (classify para = Role.Header ∨ classify para = Role.UppercaseHeader
        ∨ pyIsUpperList (pyStripList para.toList) = true) := by
  by_cases h1 : ['#'].isPrefixOf (pyStripList para.toList) = true
  · have hs : spacerAfter para = 10 := by
      simp only [spacerAfter]
      rw [if_pos (Or.inl h1)]
    rw [hs, classify_hash para h1]
    simp
  · by_cases h2 : pyIsUpperList (pyStripList para.toList) = true
    · have hs : spacerAfter para = 10 := by
        simp only [spacerAfter]
        rw [if_pos (Or.inr h2)]
      rw [hs]
      exact ⟨fun _ => Or.inr (Or.inr h2), fun _ => rfl⟩
    · have hs : spacerAfter para = 6 := by
        simp only [spacerAfter]
        rw [if_neg (fun hor => hor.elim h1 h2)]
      have hcl : classify para = Role.Bullet ∨ classify para = Role.Signature
          ∨ classify para = Role.Body := by
        simp only [classify]
        rw [if_neg hne, if_neg h1, if_neg (fun hc => h2 hc.1)]
        split_ifs <;> simp
      rw [hs]
      rcases hcl with h | h | h <;> rw [h] <;>
        exact ⟨fun h6 => absurd h6 (by decide),
               fun hr => hr.elim (fun hh => absurd hh (by decide))
                 (fun hr2 => hr2.elim (fun hh => absurd hh (by decide))
                   (fun hh => absurd hh h2))⟩

/-- Witness for `spacer_large_iff` at the header line `"# Title"`. -/
theorem spacer_large_iff_witness :
    pyStripList "# Title".toList ≠ []
      ∧ (spacerAfter "# Title" = 10 ↔
          (classify "# Title" = Role.Header ∨ classify "# Title" = Role.UppercaseHeader
            ∨ pyIsUpperList (pyStripList "# Title".toList) = true)) :=
  ⟨by decide, spacer_large_iff "# Title" (by decide)⟩

/-- C8: ASCII bullet markers are recognized, but the bullet glyph `'•'`
(U+2022) is not: app.py line 364 compares against the mis-decoded
three-character sequence U+00E2 U+20AC U+00A2 (`mojibakeBullet`), so a line
that starts with the real glyph falls through to the `Body` rule, while a
line starting with the mojibake sequence is the one classified `Bullet`. -/
theorem bullet_glyph_misencoded :
    classify "- Adopt AI now" = Role.Bullet
      ∧ classify "* Adopt AI now" = Role.Bullet
      ∧ classify "• Adopt AI now" = Role.Body
      ∧ classify (String.mk (mojibakeBullet ++ " Adopt AI now".toList)) = Role.Bullet := by
  refine ⟨by decide, by decide, by decide, by decide⟩

/-! ## Step lemmas for the retry loops -/

lemma innerLoop_ok {llm : Nat → Except String String} {a r : Nat} {t : String}
    (h : llm a = .ok t) : innerLoop llm a (r + 1) = (.ok t, 1) := by
  simp [innerLoop, h]

lemma innerLoop3_ok0 {llm : Nat → Except String String} {t : String}
    (h : llm 0 = .ok t) : innerLoop llm 0 3 = (.ok t, 1) :=
  innerLoop_ok h

lemma innerLoop3_fail_fail_ok {llm : Nat → Except String String} {e0 e1 t : String}
    (h0 : llm 0 = .error e0) (h1 : llm 1 = .error e1) (h2 : llm 2 = .ok t) :
    innerLoop llm 0 3 = (.ok t, 3) := by
  simp [innerLoop, h0, h1, h2]

lemma innerLoop3_all_fail {llm : Nat → Except String String} {e0 e1 e2 : String}
    (h0 : llm 0 = .error e0) (h1 : llm 1 = .error e1) (h2 : llm 2 = .error e2) :
    innerLoop llm 0 3 =
      (.error ("Failed to generate consultation after 3 attempts: " ++ e2), 3) := by
  simp [innerLoop, h0, h1, h2]

lemma generate_ok_first (form : FormData) (llm : String → Nat → Except String String)
    (render : Except String Unit) (uuidHex : String) {t : String}
    (h : llm (buildPrompt form) 0 = .ok t) (hr : render = .ok ()) :
    generate_consultation form llm render uuidHex =
      { outcome := .ok ⟨true, "/download/" ++ (pyStr form.consultancy_type ++ "_"
          ++ String.mk (uuidHex.toList.take 8) ++ ".pdf")⟩,
        llmCalls := 1, renderCalls := 1,
        files := [pyStr form.consultancy_type ++ "_"
          ++ String.mk (uuidHex.toList.take 8) ++ ".pdf"],
        title := some (consultancyLabel form.consultancy_type "AI Consultancy Report"),
        prompt := buildPrompt form } := by
  simp [generate_consultation, inner_max_retries, innerLoop3_ok0 h, hr]

lemma generate_third_try (form : FormData) (llm : String → Nat → Except String String)
    (render : Except String Unit) (uuidHex : String) {e0 e1 t : String}
    (h0 : llm (buildPrompt form) 0 = .error e0)
    (h1 : llm (buildPrompt form) 1 = .error e1)
    (h2 : llm (buildPrompt form) 2 = .ok t) (hr : render = .ok ()) :
    generate_consultation form llm render uuidHex =
      { outcome := .ok ⟨true, "/download/" ++ (pyStr form.consultancy_type ++ "_"
          ++ String.mk (uuidHex.toList.take 8) ++ ".pdf")⟩,
        llmCalls := 3, renderCalls := 1,
        files := [pyStr form.consultancy_type ++ "_"
          ++ String.mk (uuidHex.toList.take 8) ++ ".pdf"],
        title := some (consultancyLabel form.consultancy_type "AI Consultancy Report"),
        prompt := buildPrompt form } := by
  simp [generate_consultation, inner_max_retries, innerLoop3_fail_fail_ok h0 h1 h2, hr]

lemma generate_render_fail (form : FormData) (llm : String → Nat → Except String String)
    (render : Except String Unit) (uuidHex : String) {t re : String}
    (h : llm (buildPrompt form) 0 = .ok t) (hr : render = .error re) :
    generate_consultation form llm render uuidHex =
      { outcome := .error ("Failed to generate consultation: " ++ re),
        llmCalls := 1, renderCalls := 1, files := [],
        title := some (consultancyLabel form.consultancy_type "AI Consultancy Report"),
        prompt := buildPrompt form } := by
  simp [generate_consultation, inner_max_retries, innerLoop3_ok0 h, hr]

lemma generate_all_fail (form : FormData) (llm : String → Nat → Except String String)
    (render : Except String Unit) (uuidHex : String) {e0 e1 e2 : String}
    (h0 : llm (buildPrompt form) 0 = .error e0)
    (h1 : llm (buildPrompt form) 1 = .error e1)
    (h2 : llm (buildPrompt form) 2 = .error e2) :
    generate_consultation form llm render uuidHex =
      { outcome := .error ("Failed to generate consultation: "
          ++ ("Failed to generate consultation after 3 attempts: " ++ e2)),
        llmCalls := 3, renderCalls := 0, files := [], title := none,
        prompt := buildPrompt form } := by
  simp [generate_consultation, inner_max_retries, innerLoop3_all_fail h0 h1 h2]

lemma outerLoop_timeout {elapsed : Nat → Nat} {gen : Nat → GenOutput} {a r : Nat}
    (h : timeout_limit < elapsed a) :
    outerLoop elapsed gen a (r + 1) =
      { response := .accepted202 processingMsg, genInvocations := 0, llmCalls := 0,
        renderCalls := 0, files := [], unsuccessfulResults := 0 } := by
  simp [outerLoop, h]

lemma outerLoop_ok {elapsed : Nat → Nat} {gen : Nat → GenOutput} {a r : Nat}
    {res : GenResult} (hel : elapsed a ≤ timeout_limit)
    (hg : (gen a).outcome = .ok res) (hs : res.success = true) :
    outerLoop elapsed gen a (r + 1) =
      { response := .ok200 res, genInvocations := 1, llmCalls := (gen a).llmCalls,
        renderCalls := (gen a).renderCalls, files := (gen a).files,
        unsuccessfulResults := 0 } := by
  simp [outerLoop, Nat.not_lt.mpr hel, hg, hs]

lemma outerLoop_err_last {elapsed : Nat → Nat} {gen : Nat → GenOutput} {a : Nat}
    {e : String} (hel : elapsed a ≤ timeout_limit) (hg : (gen a).outcome = .error e) :
    outerLoop elapsed gen a 1 =
      { response := .error500 ("Consultation generation failed after 2 attempts: " ++ e),
        genInvocations := 1, llmCalls := (gen a).llmCalls,
        renderCalls := (gen a).renderCalls, files := (gen a).files,
        unsuccessfulResults := 0 } := by
  simp [outerLoop, Nat.not_lt.mpr hel, hg]

lemma outerLoop_err_step {elapsed : Nat → Nat} {gen : Nat → GenOutput} {a r : Nat}
    {e : String} (hel : elapsed a ≤ timeout_limit) (hg : (gen a).outcome = .error e) :
    outerLoop elapsed gen a (r + 2) =
      { response := (outerLoop elapsed gen (a + 1) (r + 1)).response,
        genInvocations := (outerLoop elapsed gen (a + 1) (r + 1)).genInvocations + 1,
        llmCalls := (gen a).llmCalls + (outerLoop elapsed gen (a + 1) (r + 1)).llmCalls,
        renderCalls := (gen a).renderCalls
          + (outerLoop elapsed gen (a + 1) (r + 1)).renderCalls,
        files := (gen a).files ++ (outerLoop elapsed gen (a + 1) (r + 1)).files,
        unsuccessfulResults := (outerLoop elapsed gen (a + 1) (r + 1)).unsuccessfulResults } := by
  have hnl : ¬ timeout_limit < elapsed a := Nat.not_lt.mpr hel
  conv_lhs => rw [outerLoop]
  rw [if_neg hnl]
  simp only [hg]

lemma generate_ok_success {form : FormData} {llm : String → Nat → Except String String}
    {render : Except String Unit} {uuidHex : String} {res : GenResult}
    (h : (generate_consultation form llm render uuidHex).outcome = .ok res) :
    res.success = true := by
  simp only [generate_consultation] at h
  rcases hres : (innerLoop (llm (buildPrompt form)) 0 inner_max_retries).1 with e | t
  · rw [hres] at h
    simp at h
  · rw [hres] at h
    cases render with
    | error re => simp at h
    | ok u =>
      simp at h
      rw [← h]

lemma outerLoop_unsuccessful_zero (elapsed : Nat → Nat) (gen : Nat → GenOutput)
    (hgen : ∀ n res, (gen n).outcome = .ok res → res.success = true) :
    ∀ r a, (outerLoop elapsed gen a r).unsuccessfulResults = 0 := by
  intro r
  induction r with
  | zero => intro a; rfl
  | succ r ih =>
    intro a
    by_cases ht : timeout_limit < elapsed a
    · rw [outerLoop_timeout ht]
    · have hel : elapsed a ≤ timeout_limit := Nat.not_lt.mp ht
      rcases hg : (gen a).outcome with e | res
      · cases r with
        | zero => rw [outerLoop_err_last hel hg]
        | succ r' =>
          rw [outerLoop_err_step hel hg]
          exact ih (a + 1)
      · have hs := hgen a res hg
        rw [outerLoop_ok hel hg hs]

lemma payment_success_unsuccessful_zero (form : FormData) (elapsed : Nat → Nat)
    (llm : Nat → String → Nat → Except String String)
    (render : Nat → Except String Unit) (uuidHex : Nat → String) :
    (payment_success form elapsed llm render uuidHex).unsuccessfulResults = 0 := by
  unfold payment_success
  exact outerLoop_unsuccessful_zero elapsed _
    (fun n res h => generate_ok_success h) outer_max_retries 0

lemma toList_append_pre {s p : String} (h : ∃ r, s.toList = p.toList ++ r)
    (x : String) : ∃ r, (s ++ x).toList = p.toList ++ r := by
  obtain ⟨r, hr⟩ := h
  have hr2 : s.data = p.data ++ r := hr
  exact ⟨r ++ x.toList, by simp [String.data_append, hr2, List.append_assoc]⟩

/-! ## Claims about the orchestrator and the workflow loop -/

set_option maxRecDepth 100000 in
/-- C2 counterexample: with the generation call succeeding and the renderer
failing only on the first outer attempt, the whole invocation does **not**
fail with a 5xx: the outer workflow loop catches the propagated render
exception, retries, and returns 200 — and the renderer was invoked twice, so
the render failure *was* retried by a retry loop. -/
theorem render_error_retried_cex :
    (payment_success emptyForm (fun _ => 0) (fun _ _ _ => .ok "Report text")
        (fun n => if n = 0 then .error "render boom" else .ok ())
        (fun _ => "0123456789abcdef")).response =
      HttpResponse.ok200 ⟨true, "/download/None_01234567.pdf"⟩
    ∧ (payment_success emptyForm (fun _ => 0) (fun _ _ _ => .ok "Report text")
        (fun n => if n = 0 then .error "render boom" else .ok ())
        (fun _ => "0123456789abcdef")).renderCalls = 2 := by
  constructor
  · decide
  · decide

/-- C2 as amended: a renderer failure is not retried by the inner generation
loop — each `generate_consultation` call invokes the renderer at most once and
propagates the failure as a generic exception — but the outer workflow loop
catches that exception and retries the whole generation once; only when the
renderer fails on both outer attempts is the invocation surfaced as a 500. -/
theorem render_error_outer_retry (form : FormData) (elapsed : Nat → Nat)
    (llm : Nat → String → Nat → Except String String)
    (render : Nat → Except String Unit) (uuidHex : Nat → String)
    (t0 t1 e0 e1 : String)
    (hel0 : elapsed 0 ≤ timeout_limit) (hel1 : elapsed 1 ≤ timeout_limit)
    (hl0 : llm 0 (buildPrompt form) 0 = .ok t0)
    (hl1 : llm 1 (buildPrompt form) 0 = .ok t1)
    (hr0 : render 0 = .error e0) (hr1 : render 1 = .error e1) :
    payment_success form elapsed llm render uuidHex =
      { response := .error500 ("Consultation generation failed after 2 attempts: "
          ++ ("Failed to generate consultation: " ++ e1)),
        genInvocations := 2, llmCalls := 2, renderCalls := 2, files := [],
        unsuccessfulResults := 0 } := by
  have g0 := generate_render_fail form (llm 0) (render 0) (uuidHex 0) hl0 hr0
  have g1 := generate_render_fail form (llm 1) (render 1) (uuidHex 1) hl1 hr1
  have hg0 : ((fun n => generate_consultation form (llm n) (render n) (uuidHex n)) 0).outcome
      = .error ("Failed to generate consultation: " ++ e0) := by
    simpa using congrArg GenOutput.outcome g0
  have hg1 : ((fun n => generate_consultation form (llm n) (render n) (uuidHex n)) 1).outcome
      = .error ("Failed to generate consultation: " ++ e1) := by
    simpa using congrArg GenOutput.outcome g1
  unfold payment_success
  rw [show outer_max_retries = 0 + 2 from rfl]
  rw [outerLoop_err_step hel0 hg0]
  simp only [Nat.zero_add]
  rw [outerLoop_err_last hel1 hg1]
  simp [g0, g1]

set_option maxRecDepth 100000 in
/-- Witness for `render_error_outer_retry` at a concrete environment. -/
theorem render_error_outer_retry_witness :
    payment_success emptyForm (fun _ => 0) (fun _ _ _ => .ok "T")
        (fun _ => .error "boom") (fun _ => "0123456789abcdef") =
      { response := .error500 ("Consultation generation failed after 2 attempts: "
          ++ ("Failed to generate consultation: " ++ "boom")),
        genInvocations := 2, llmCalls := 2, renderCalls := 2, files := [],
        unsuccessfulResults := 0 } :=
  render_error_outer_retry emptyForm (fun _ => 0) (fun _ _ _ => .ok "T")
    (fun _ => .error "boom") (fun _ => "0123456789abcdef") "T" "T" "boom" "boom"
    (by decide) (by decide) rfl rfl rfl rfl

/-- C3: when every OpenAI call fails on both outer attempts (3 inner attempts
each), the workflow returns a 500 carrying the error detail, the renderer is
never invoked, and no artifact file is created; six OpenAI calls were made in
total (3 per outer attempt). -/
theorem total_failure_no_artifact (form : FormData) (elapsed : Nat → Nat)
    (llm : Nat → String → Nat → Except String String)
    (render : Nat → Except String Unit) (uuidHex : Nat → String)
    (err : Nat → Nat → String)
    (hel0 : elapsed 0 ≤ timeout_limit) (hel1 : elapsed 1 ≤ timeout_limit)
    (hllm : ∀ n k, llm n (buildPrompt form) k = .error (err n k)) :
    payment_success form elapsed llm render uuidHex =
      { response := .error500 ("Consultation generation failed after 2 attempts: "
          ++ ("Failed to generate consultation: "
            ++ ("Failed to generate consultation after 3 attempts: " ++ err 1 2))),
        genInvocations := 2, llmCalls := 6, renderCalls := 0, files := [],
        unsuccessfulResults := 0 } := by
  have g0 := generate_all_fail form (llm 0) (render 0) (uuidHex 0)
    (hllm 0 0) (hllm 0 1) (hllm 0 2)
  have g1 := generate_all_fail form (llm 1) (render 1) (uuidHex 1)
    (hllm 1 0) (hllm 1 1) (hllm 1 2)
  have hg0 : ((fun n => generate_consultation form (llm n) (render n) (uuidHex n)) 0).outcome
      = .error ("Failed to generate consultation: "
          ++ ("Failed to generate consultation after 3 attempts: " ++ err 0 2)) := by
    simpa using congrArg GenOutput.outcome g0
  have hg1 : ((fun n => generate_consultation form (llm n) (render n) (uuidHex n)) 1).outcome
      = .error ("Failed to generate consultation: "
          ++ ("Failed to generate consultation after 3 attempts: " ++ err 1 2)) := by
    simpa using congrArg GenOutput.outcome g1
  unfold payment_success
  rw [show outer_max_retries = 0 + 2 from rfl]
  rw [outerLoop_err_step hel0 hg0]
  simp only [Nat.zero_add]
  rw [outerLoop_err_last hel1 hg1]
  simp [g0, g1]

set_option maxRecDepth 100000 in
/-- Witness for `total_failure_no_artifact` at a concrete environment. -/
theorem total_failure_no_artifact_witness :
    payment_success emptyForm (fun _ => 0) (fun _ _ _ => .error "E")
        (fun _ => .ok ()) (fun _ => "0123456789abcdef") =
      { response := .error500 ("Consultation generation failed after 2 attempts: "
          ++ ("Failed to generate consultation: "
            ++ ("Failed to generate consultation after 3 attempts: " ++ "E"))),
        genInvocations := 2, llmCalls := 6, renderCalls := 0, files := [],
        unsuccessfulResults := 0 } :=
  total_failure_no_artifact emptyForm (fun _ => 0) (fun _ _ _ => .error "E")
    (fun _ => .ok ()) (fun _ => "0123456789abcdef") (fun _ _ => "E")
    (by decide) (by decide) (fun _ _ => rfl)

/-- C4: if the OpenAI call fails exactly twice and succeeds on the third
inner attempt, `generate_consultation` returns a success dict carrying a
download URL, the renderer is invoked exactly once, and exactly 3 OpenAI
calls were made. -/
theorem two_failures_then_success (form : FormData)
    (llm : String → Nat → Except String String) (render : Except String Unit)
    (uuidHex e0 e1 t : String)
    (h0 : llm (buildPrompt form) 0 = .error e0)
    (h1 : llm (buildPrompt form) 1 = .error e1)
    (h2 : llm (buildPrompt form) 2 = .ok t)
    (hr : render = .ok ()) :
    (generate_consultation form llm render uuidHex).outcome =
        .ok ⟨true, "/download/" ++ (pyStr form.consultancy_type ++ "_"
          ++ String.mk (uuidHex.toList.take 8) ++ ".pdf")⟩
      ∧ (generate_consultation form llm render uuidHex).renderCalls = 1
      ∧ (generate_consultation form llm render uuidHex).llmCalls = 3 := by
  rw [generate_third_try form llm render uuidHex h0 h1 h2 hr]
  exact ⟨rfl, rfl, rfl⟩

/-- Witness for `two_failures_then_success` at a concrete environment. -/
theorem two_failures_then_success_witness :
    (generate_consultation emptyForm (fun _ k => if k < 2 then .error "E" else .ok "T")
        (.ok ()) "0123456789abcdef").outcome =
        .ok ⟨true, "/download/" ++ (pyStr emptyForm.consultancy_type ++ "_"
          ++ String.mk ("0123456789abcdef".toList.take 8) ++ ".pdf")⟩
      ∧ (generate_consultation emptyForm (fun _ k => if k < 2 then .error "E" else .ok "T")
          (.ok ()) "0123456789abcdef").renderCalls = 1
      ∧ (generate_consultation emptyForm (fun _ k => if k < 2 then .error "E" else .ok "T")
          (.ok ()) "0123456789abcdef").llmCalls = 3 :=
  two_failures_then_success emptyForm (fun _ k => if k < 2 then .error "E" else .ok "T")
    (.ok ()) "0123456789abcdef" "E" "E" "T" rfl rfl rfl rfl

/-- C5: when the elapsed wall-clock time already exceeds the 25-second budget
at the top of the first outer attempt, the workflow returns the 202
still-processing response and the text-generation capability is never
invoked (zero OpenAI calls, zero `generate_consultation` invocations). -/
theorem budget_exhausted_processing (form : FormData) (elapsed : Nat → Nat)
    (llm : Nat → String → Nat → Except String String)
    (render : Nat → Except String Unit) (uuidHex : Nat → String)
    (h : timeout_limit < elapsed 0) :
    payment_success form elapsed llm render uuidHex =
      { response := .accepted202 processingMsg, genInvocations := 0, llmCalls := 0,
        renderCalls := 0, files := [], unsuccessfulResults := 0 } := by
  unfold payment_success
  rw [show outer_max_retries = 1 + 1 from rfl]
  exact outerLoop_timeout h

/-- Witness for `budget_exhausted_processing` at a concrete environment. -/
theorem budget_exhausted_processing_witness :
    timeout_limit < 26
      ∧ payment_success emptyForm (fun _ => 26) (fun _ _ _ => .ok "T")
          (fun _ => .ok ()) (fun _ => "0123456789abcdef") =
        { response := .accepted202 processingMsg, genInvocations := 0, llmCalls := 0,
          renderCalls := 0, files := [], unsuccessfulResults := 0 } :=
  ⟨by decide, budget_exhausted_processing emptyForm (fun _ => 26) (fun _ _ _ => .ok "T")
    (fun _ => .ok ()) (fun _ => "0123456789abcdef") (by decide)⟩

/-- C9: `generate_consultation` never returns an unsuccessful result dict —
every returned (non-raising) result has `success = True` — and consequently
the `else` branch of `if document_result.get('success')` in `payment_success`
(app.py lines 149-158) is never entered, for any environment. -/
theorem no_unsuccessful_result (form : FormData)
    (llm : String → Nat → Except String String) (render : Except String Unit)
    (uuidHex : String) (res : GenResult) (form2 : FormData) (elapsed : Nat → Nat)
    (llm2 : Nat → String → Nat → Except String String)
    (render2 : Nat → Except String Unit) (uuid2 : Nat → String)
    (h : (generate_consultation form llm render uuidHex).outcome = .ok res) :
    res.success = true
      ∧ (payment_success form2 elapsed llm2 render2 uuid2).unsuccessfulResults = 0 :=
  ⟨generate_ok_success h,
   payment_success_unsuccessful_zero form2 elapsed llm2 render2 uuid2⟩

set_option maxRecDepth 100000 in
/-- Witness for `no_unsuccessful_result` at a concrete environment. -/
theorem no_unsuccessful_result_witness :
    (⟨true, "/download/None_01234567.pdf"⟩ : GenResult).success = true
      ∧ (payment_success emptyForm (fun _ => 0) (fun _ _ _ => .ok "T")
          (fun _ => .ok ()) (fun _ => "0123456789abcdef")).unsuccessfulResults = 0 :=
  no_unsuccessful_result emptyForm (fun _ _ => .ok "T") (.ok ()) "0123456789abcdef"
    ⟨true, "/download/None_01234567.pdf"⟩ emptyForm (fun _ => 0) (fun _ _ _ => .ok "T")
    (fun _ => .ok ()) (fun _ => "0123456789abcdef") (by decide)

/-- C10: with `consultancy_type` absent from the form, generation still
succeeds (given a successful call and render): the artifact filename is
literally `"None_"` followed by the 8-hex id and `".pdf"` (Python formats
`None` into the f-string), the document title handed to `create_pdf` falls
back to `"AI Consultancy Report"`, and the prompt falls back to the
`"AI Consultancy"` label. -/
theorem missing_consultancy_type_defaults (form : FormData)
    (llm : String → Nat → Except String String) (render : Except String Unit)
    (uuidHex t : String)
    (hct : form.consultancy_type = none)
    (h0 : llm (buildPrompt form) 0 = .ok t)
    (hr : render = .ok ())
    (hlen : 8 ≤ uuidHex.toList.length) :
    (generate_consultation form llm render uuidHex).outcome =
        .ok ⟨true, "/download/" ++ ("None_" ++ String.mk (uuidHex.toList.take 8) ++ ".pdf")⟩
      ∧ (generate_consultation form llm render uuidHex).files
          = ["None_" ++ String.mk (uuidHex.toList.take 8) ++ ".pdf"]
      ∧ (String.mk (uuidHex.toList.take 8)).length = 8
      ∧ (generate_consultation form llm render uuidHex).title = some "AI Consultancy Report"
      ∧ (∃ rest, ((generate_consultation form llm render uuidHex).prompt).toList
          = "Generate a comprehensive AI Consultancy report for ".toList ++ rest) := by
  have g := generate_ok_first form llm render uuidHex h0 hr
  refine ⟨?_, ?_, ?_, ?_, ?_⟩
  · simp [g, hct, pyStr]
  · simp [g, hct, pyStr]
  · have hlen2 : 8 ≤ uuidHex.length := hlen
    simp [List.length_take]
    omega
  · simp [g, hct, consultancyLabel]
  · simp only [g]
    unfold buildPrompt
    rw [hct]
    simp only [consultancyLabel]
    have hbase : ∃ r,
        ("Generate a comprehensive " ++ "AI Consultancy" ++ " report for " : String).toList
          = ("Generate a comprehensive AI Consultancy report for " : String).toList ++ r :=
      ⟨[], by decide⟩
    iterate 18 apply toList_append_pre
    exact hbase

set_option maxRecDepth 100000 in
/-- Witness for `missing_consultancy_type_defaults` at a concrete environment. -/
theorem missing_consultancy_type_defaults_witness :
    (generate_consultation emptyForm (fun _ _ => .ok "T") (.ok ())
          "0123456789abcdef").outcome =
        .ok ⟨true, "/download/"
          ++ ("None_" ++ String.mk ("0123456789abcdef".toList.take 8) ++ ".pdf")⟩
      ∧ (generate_consultation emptyForm (fun _ _ => .ok "T") (.ok ())
            "0123456789abcdef").files
          = ["None_" ++ String.mk ("0123456789abcdef".toList.take 8) ++ ".pdf"]
      ∧ (String.mk ("0123456789abcdef".toList.take 8)).length = 8
      ∧ (generate_consultation emptyForm (fun _ _ => .ok "T") (.ok ())
            "0123456789abcdef").title = some "AI Consultancy Report"
      ∧ (∃ rest, ((generate_consultation emptyForm (fun _ _ => .ok "T") (.ok ())
            "0123456789abcdef").prompt).toList
          = "Generate a comprehensive AI Consultancy report for ".toList ++ rest) :=
  missing_consultancy_type_defaults emptyForm (fun _ _ => .ok "T") (.ok ())
    "0123456789abcdef" "T" rfl rfl rfl (by decide)

end App